import Mathlib

/-!
Verification development for the dspy-story-maker prompt-safety filter and
generation pipeline (src/src/pipeline/validator.py, story_generator.py,
data_structures.py).  Python strings are modelled as Lean `String`
(lists of characters); the word-boundary regular expressions
`\b(w1|...|wn)\b` used by the validator match exactly the maximal
word-character runs of the text that equal one of the alternatives, which
is what the functions below compute.  Character classes follow the ASCII
reading of the source patterns.  The text-generation model is an external
collaborator and is modelled as an oracle function; the orchestrator is
instrumented to also return the list of calls it makes to the oracle.
-/

namespace StoryMaker

/-- Word characters for the regex word boundaries of the source patterns
(letters, digits, underscore). -/
def isWordChar (c : Char) : Bool := c.isAlphanum || c = '_'

/-- Python str.lower (character-wise). -/
def lowerS (s : String) : String := String.mk (s.data.map Char.toLower)

/-- Accumulator pass collecting the maximal word-character runs of a
character list; `cur` holds the current run reversed. -/
def wordsAux : List Char → List Char → List (List Char)
  | cur, [] => if cur.isEmpty then [] else [cur.reverse]
  | cur, c :: cs =>
    if isWordChar c then wordsAux (c :: cur) cs
    else if cur.isEmpty then wordsAux [] cs
    else cur.reverse :: wordsAux [] cs

/-- The maximal word-character runs of a string, in order. -/
def wordsOf (s : String) : List String := (wordsAux [] s.data).map String.mk

/-- Semantics of re.findall for a whole-word alternation pattern: the
words of the text that are among the alternatives, in text order, one
entry per occurrence. -/
def findall (alts : List String) (s : String) : List String :=
  (wordsOf s).filter (fun w => alts.contains w)

/-- Maximal runs of a character list, each tagged with whether it is a
word-character run. -/
def runsR : List Char → List (Bool × List Char)
  | [] => []
  | c :: cs =>
    match runsR cs with
    | [] => [(isWordChar c, [c])]
    | (b, r) :: rest =>
      if isWordChar c = b then (b, c :: r) :: rest
      else (isWordChar c, [c]) :: (b, r) :: rest

/-- Semantics of re.sub with the IGNORECASE flag for a whole-word
alternation pattern: every maximal word run whose lower-casing is among
the alternatives is replaced by the replacement text. -/
def subWords (alts : List String) (repl : String) (s : String) : String :=
  String.join ((runsR s.data).map (fun br =>
    if br.1 && alts.contains (String.mk (br.2.map Char.toLower)) then repl
    else String.mk br.2))

/-- Python str.split(sep) on a single-character separator generalised to a
predicate: splits at every matching character and keeps empty pieces; the
result is always non-empty. -/
def splitOnP (p : Char → Bool) : List Char → List (List Char)
  | [] => [[]]
  | c :: cs =>
    if p c then [] :: splitOnP p cs
    else
      match splitOnP p cs with
      | t :: ts => (c :: t) :: ts
      | [] => [[c]]

/-- Python str.split(sep) for a one-character separator. -/
def pySplitChar (sep : Char) (s : String) : List String :=
  (splitOnP (fun c => c = sep) s.data).map String.mk

/-- Python str.split() with no argument: whitespace-delimited tokens,
empty pieces dropped. -/
def pySplit (s : String) : List String :=
  ((splitOnP (fun c => c.isWhitespace) s.data).map String.mk).filter (fun t => t ≠ "")

/-- Python str.strip(): remove leading and trailing whitespace. -/
def pyStrip (s : String) : String :=
  String.mk (((s.data.dropWhile Char.isWhitespace).reverse.dropWhile Char.isWhitespace).reverse)

/-- Python s.startswith(pre). -/
def pyStartsWith (s pre : String) : Bool := pre.data.isPrefixOf s.data

/-- Python s.endswith(suf). -/
def pyEndsWith (s suf : String) : Bool := suf.data.isSuffixOf s.data

/-- Python s[n:] (drop the first n characters). -/
def pyDrop (s : String) (n : Nat) : String := String.mk (s.data.drop n)

/-- StoryRequest from data_structures.py. -/
structure StoryRequest where
  prompt : String
  genre : String
  age_group : String := "3-7"
  story_length : String := "short"
deriving Repr, DecidableEq

/-- ValidatedPrompt from data_structures.py. -/
structure ValidatedPrompt where
  original_prompt : String
  cleaned_prompt : String
  is_safe : Bool
  removed_content : List String
  warnings : List String
deriving Repr, DecidableEq

/-- GeneratedStory from data_structures.py. -/
structure GeneratedStory where
  title : String
  story_text : String
  genre : String
  age_group : String
  word_count : Nat
  estimated_reading_time : String
  is_safe : Bool
deriving Repr, DecidableEq

/-- The harmful-content alternation patterns of PromptValidator.__init__,
in source order. -/
def harmful_patterns : List (List String) :=
  [ ["kill", "death", "die", "murder", "suicide"],
    ["violence", "fighting", "war", "gun", "weapon", "blood", "gore"],
    ["hate", "racist", "discrimination"],
    ["scary", "frightening", "nightmare", "terror", "horror"],
    ["inappropriate", "adult", "sexual"] ]

/-- The gentler-alternative replacement table of PromptValidator.__init__,
in source order. -/
def replacements : List (List String × String) :=
  [ (["scary", "frightening", "terror", "horror"], "mysterious"),
    (["fight", "fighting"], "disagree"),
    (["hurt", "pain"], "uncomfortable"),
    (["angry", "mad"], "upset"),
    (["bad", "evil"], "mischievous") ]

/-- The per-genre opening phrases of PromptValidator._enhance_prompt. -/
def genre_starters : List (String × String) :=
  [ ("adventure", "Once upon a time, in a land of exciting adventures, "),
    ("fantasy", "In a magical world filled with wonder, "),
    ("friendship", "In a warm and friendly place, "),
    ("learning", "One day, a curious child discovered that "),
    ("animals", "In a forest where animals could talk, "),
    ("bedtime", "As the stars began to twinkle in the night sky, "),
    ("funny", "On a silly and wonderful day, "),
    ("mystery", "There was an interesting mystery to solve when ") ]

/-- Warning text produced for one matching category; the nondeterministic
Python set iteration order of the joined terms is modelled as dedup in
first-occurrence order. -/
def removedWarning (ms : List String) : String :=
  "Removed potentially inappropriate content: " ++ String.intercalate ", " ms.dedup

/-- The harmful-pattern loop of PromptValidator.validate: returns the
accumulated (removed_content, warnings, is_safe) triple. -/
def scanPatterns (lowered : String) : List (List String) → List String × List String × Bool
  | [] => ([], [], true)
  | pat :: rest =>
    let ms := findall pat lowered
    let r := scanPatterns lowered rest
    if ms.isEmpty then r
    else (ms ++ r.1, removedWarning ms :: r.2.1, false)

/-- PromptValidator._enhance_prompt. -/
def enhance_prompt (prompt : String) (genre : String) : String :=
  let starter := (genre_starters.lookup (lowerS genre)).getD "Once upon a time, "
  if ["once", "there", "in a", "one day"].any (fun p => pyStartsWith (lowerS prompt) p)
  then prompt
  else starter ++ lowerS prompt

/-- PromptValidator.validate. -/
def validate (request : StoryRequest) : ValidatedPrompt :=
  let prompt := request.prompt
  let scanned := scanPatterns (lowerS prompt) harmful_patterns
  let removed_content := scanned.1
  let warnings := scanned.2.1
  let is_safe := scanned.2.2
  let cleaned0 := replacements.foldl (fun cp pr => subWords pr.1 pr.2 cp) prompt
  let severe := is_safe = false ∧ 3 < removed_content.length
  let cleaned1 := if severe then
      "A gentle " ++ request.genre ++ " story about friendship and kindness"
    else cleaned0
  let warnings1 := if severe then warnings ++ ["Prompt was significantly modified for safety"]
    else warnings
  let cleaned2 := if is_safe = true ∨ removed_content.length ≤ 3 then
      enhance_prompt cleaned1 request.genre
    else cleaned1
  { original_prompt := prompt
    cleaned_prompt := cleaned2
    is_safe := is_safe || decide (removed_content.length ≤ 3)
    removed_content := removed_content.dedup
    warnings := warnings1 }

/-- StoryGenerationPipeline.LENGTH_MAPPING. -/
def LENGTH_MAPPING : List (String × Nat) :=
  [("short", 400), ("medium", 600), ("long", 800)]

/-- The non-blank stripped lines of a story text, as computed at the top of
StoryGenerationPipeline._extract_title. -/
def titleLines (story_text : String) : List String :=
  ((pySplitChar '\n' story_text).map pyStrip).filter (fun l => l ≠ "")

/-- The first-sentence fallthrough at the bottom of
StoryGenerationPipeline._extract_title. -/
def titleFallback (story_text : String) : String :=
  let first_sentence := pyStrip ((pySplitChar '.' story_text).headD "")
  if 10 < first_sentence.data.length ∧ first_sentence.data.length < 100 then first_sentence
  else "A Wonderful Story"

/-- StoryGenerationPipeline._extract_title. -/
def extract_title (story_text : String) : String :=
  match titleLines story_text with
  | [] => titleFallback story_text
  | first_line :: rest =>
    if first_line.data.length < 80 ∧ pyEndsWith first_line "." = false then first_line
    else
      match ((first_line :: rest).take 3).find? (fun l => pyStartsWith (lowerS l) "title:") with
      | some line => pyStrip (pyDrop line 6)
      | none => titleFallback story_text

/-- StoryGenerationPipeline._calculate_reading_time. -/
def calculate_reading_time (word_count : Nat) : String :=
  let minutes := max 1 (word_count / 150)
  toString minutes ++ "-" ++ toString (minutes + 1) ++ " minutes"

/-- The literal default story text of
StoryGenerationPipeline._create_safe_default_story (the Python adjacent
string literals concatenated). -/
def default_text : String :=
  "Once upon a time, in a peaceful village, there lived a kind young child " ++
  "who loved to help others. Every day, they would share their toys with friends " ++
  "and learn new things about the world. Through friendship and kindness, " ++
  "they discovered that the greatest adventures come from caring for others. " ++
  "And they all lived happily ever after. The End."

/-- StoryGenerationPipeline._create_safe_default_story (the validated
argument is passed but unused, as in the source). -/
def create_safe_default_story (request : StoryRequest) (_validated : ValidatedPrompt) :
    GeneratedStory :=
  { title := "A Story About Kindness"
    story_text := default_text
    genre := request.genre
    age_group := request.age_group
    word_count := (pySplit default_text).length
    estimated_reading_time := "2-3 minutes"
    is_safe := true }

/-- One invocation of the external generation collaborator
TinyStoriesModel.generate_story; the Python float sampling parameters are
recorded as exact rationals. -/
structure ModelCall where
  prompt : String
  max_length : Nat
  temperature : ℚ
  top_p : ℚ
  repetition_penalty : ℚ
  num_return_sequences : Nat
deriving Repr, DecidableEq

/-- The generation collaborator as an oracle: a call produces the list of
returned sequences. -/
def Model : Type := ModelCall → List String

/-- The collaborator call StoryGenerationPipeline.generate constructs for a
request on the safe path. -/
def modelCallOf (request : StoryRequest) : ModelCall :=
  { prompt := (validate request).cleaned_prompt
    max_length := (LENGTH_MAPPING.lookup request.story_length).getD 400
    temperature := 0.8
    top_p := 0.9
    repetition_penalty := 1.2
    num_return_sequences := 1 }

/-- StoryGenerationPipeline.generate, instrumented: besides the
(GeneratedStory, ValidatedPrompt) pair it returns the list of calls made
to the generation collaborator, in order. -/
def generate (model : Model) (request : StoryRequest) :
    (GeneratedStory × ValidatedPrompt) × List ModelCall :=
  let validated := validate request
  if validated.is_safe = false then
    ((create_safe_default_story request validated, validated), [])
  else
    let call := modelCallOf request
    let stories := model call
    let story_text := stories.headD ""
    let title := extract_title story_text
    let word_count := (pySplit story_text).length
    let reading_time := calculate_reading_time word_count
    (({ title := title
        story_text := story_text
        genre := request.genre
        age_group := request.age_group
        word_count := word_count
        estimated_reading_time := reading_time
        is_safe := true }, validated), [call])

/-- Total number of harmful-term occurrences the validator's pattern loop
collects for a prompt (the length of removed_content before
deduplication). -/
def occCount (prompt : String) : Nat :=
  (harmful_patterns.map (fun pat => (findall pat (lowerS prompt)).length)).sum

/-- Mapping a string lower-cases character-wise, so it distributes over
append. -/
theorem lowerS_append (s t : String) : lowerS (s ++ t) = lowerS s ++ lowerS t := by
  cases s with
  | mk a =>
    cases t with
    | mk b => exact congrArg String.mk (List.map_append Char.toLower a b)

/-- The removed-content list accumulated by the pattern loop has length
equal to the total number of matches over all patterns. -/
theorem scan_removed_length (l : String) (ps : List (List String)) :
    (scanPatterns l ps).1.length = (ps.map (fun pat => (findall pat l).length)).sum := by
  induction ps with
  | nil => rfl
  | cons pat rest ih =>
    simp only [scanPatterns, List.map_cons, List.sum_cons]
    by_cases h : (findall pat l).isEmpty
    · rw [if_pos h]
      have h0 : (findall pat l).length = 0 := by
        rw [List.isEmpty_iff] at h
        simp [h]
      omega
    · rw [if_neg h]
      simp [List.length_append, ih]

/-- The pattern loop leaves the safety flag true exactly when it collected
no matches. -/
theorem scan_safe_iff (l : String) (ps : List (List String)) :
    (scanPatterns l ps).2.2 = true ↔ (scanPatterns l ps).1 = [] := by
  induction ps with
  | nil => simp [scanPatterns]
  | cons pat rest ih =>
    simp only [scanPatterns]
    by_cases h : (findall pat l).isEmpty
    · rw [if_pos h]
      exact ih
    · rw [if_neg h]
      have hne : findall pat l ≠ [] := by
        intro h0
        exact h (by simp [h0])
      simp [hne]

/-- The pattern loop emits a warning exactly when it collected a match. -/
theorem scan_warnings_iff (l : String) (ps : List (List String)) :
    (scanPatterns l ps).2.1 = [] ↔ (scanPatterns l ps).1 = [] := by
  induction ps with
  | nil => simp [scanPatterns]
  | cons pat rest ih =>
    simp only [scanPatterns]
    by_cases h : (findall pat l).isEmpty
    · rw [if_pos h]
      exact ih
    · rw [if_neg h]
      have hne : findall pat l ≠ [] := by
        intro h0
        exact h (by simp [h0])
      simp [hne]

/-- If no pattern matches, the pattern loop returns the initial
accumulator. -/
theorem scan_all_nil (l : String) (ps : List (List String))
    (h : ∀ pat ∈ ps, findall pat l = []) : scanPatterns l ps = ([], [], true) := by
  induction ps with
  | nil => rfl
  | cons pat rest ih =>
    simp only [scanPatterns]
    have hp : findall pat l = [] := h pat (by simp)
    rw [if_pos (by simp [hp])]
    exact ih (fun q hq => h q (by simp [hq]))

/-- A trailing non-word character does not change the collected words. -/
theorem wordsAux_append_sep (c : Char) (hc : isWordChar c = false) :
    ∀ (l cur : List Char), wordsAux cur (l ++ [c]) = wordsAux cur l := by
  intro l
  induction l with
  | nil =>
    intro cur
    rw [List.nil_append]
    simp only [wordsAux]
    rw [if_neg (show ¬ isWordChar c = true by simp [hc])]
    by_cases hcur : cur.isEmpty = true
    · rw [if_pos hcur, if_pos hcur]
      rfl
    · rw [if_neg hcur, if_neg hcur]
      rfl
  | cons d l ih =>
    intro cur
    rw [List.cons_append]
    simp only [wordsAux]
    by_cases hd : isWordChar d = true
    · rw [if_pos hd, if_pos hd, ih]
    · rw [if_neg hd, if_neg hd]
      by_cases hcur : cur.isEmpty = true
      · rw [if_pos hcur, if_pos hcur, ih]
      · rw [if_neg hcur, if_neg hcur, ih]

/-- Collecting words across an interior non-word character splits into the
words of the two sides. -/
theorem wordsAux_sep_split (c : Char) (hc : isWordChar c = false) :
    ∀ (l₁ l₂ cur : List Char),
      wordsAux cur (l₁ ++ c :: l₂) = wordsAux cur (l₁ ++ [c]) ++ wordsAux [] l₂ := by
  intro l₁
  induction l₁ with
  | nil =>
    intro l₂ cur
    rw [List.nil_append, List.nil_append]
    simp only [wordsAux]
    rw [if_neg (show ¬ isWordChar c = true by simp [hc]),
      if_neg (show ¬ isWordChar c = true by simp [hc])]
    by_cases hcur : cur.isEmpty = true
    · rw [if_pos hcur, if_pos hcur]
      simp [wordsAux]
    · rw [if_neg hcur, if_neg hcur]
      simp [wordsAux]
  | cons d l ih =>
    intro l₂ cur
    rw [List.cons_append, List.cons_append]
    simp only [wordsAux]
    by_cases hd : isWordChar d = true
    · rw [if_pos hd, if_pos hd, ih]
    · rw [if_neg hd, if_neg hd]
      by_cases hcur : cur.isEmpty = true
      · rw [if_pos hcur, if_pos hcur, ih]
      · rw [if_neg hcur, if_neg hcur, ih, List.cons_append]

/-- splitOnP never returns an empty list of pieces. -/
theorem splitOnP_ne_nil (p : Char → Bool) (l : List Char) : splitOnP p l ≠ [] := by
  induction l with
  | nil => simp [splitOnP]
  | cons c cs ih =>
    simp only [splitOnP]
    by_cases h : p c
    · simp [h]
    · simp only [h]
      cases hs : splitOnP p cs with
      | nil => simp
      | cons t ts => simp

/-- Every character of every piece of splitOnP comes from the input. -/
theorem splitOnP_mem (p : Char → Bool) (l : List Char) :
    ∀ t ∈ splitOnP p l, ∀ c ∈ t, c ∈ l := by
  induction l with
  | nil =>
    intro t ht c hc
    simp only [splitOnP, List.mem_singleton] at ht
    subst ht
    simp at hc
  | cons d cs ih =>
    intro t ht c hc
    simp only [splitOnP] at ht
    by_cases hd : p d
    · rw [if_pos hd] at ht
      rcases List.mem_cons.mp ht with h | h
      · subst h
        simp at hc
      · exact List.mem_cons_of_mem d (ih t h c hc)
    · rw [if_neg hd] at ht
      cases hs : splitOnP p cs with
      | nil => exact absurd hs (splitOnP_ne_nil p cs)
      | cons t0 ts =>
        rw [hs] at ht
        rcases List.mem_cons.mp ht with h | h
        · subst h
          rcases List.mem_cons.mp hc with h | h
          · simp [h]
          · exact List.mem_cons_of_mem d (ih t0 (by simp [hs]) c h)
        · exact List.mem_cons_of_mem d (ih t (by simp [hs, h]) c hc)

/-- Stripping a string whose characters are all whitespace yields the
empty string. -/
theorem pyStrip_all_ws (s : String) (h : ∀ c ∈ s.data, c.isWhitespace = true) :
    pyStrip s = "" := by
  have h1 : s.data.dropWhile Char.isWhitespace = [] :=
    List.dropWhile_eq_nil_iff.mpr h
  simp [pyStrip, h1]

/-- C1: every GeneratedStory returned by generate has is_safe = true; when
the ValidatedPrompt is unsafe the pipeline returns the fixed safe-default
story (literal title, literal text, literal reading-time string) and makes
no collaborator call; and any collaborator call implies the prompt was
validated safe. -/
theorem generate_safe_routing (model : Model) (req : StoryRequest) :
    (generate model req).1.1.is_safe = true ∧
    ((validate req).is_safe = false →
      (generate model req).2 = [] ∧
      (generate model req).1.1 = create_safe_default_story req (validate req) ∧
      (generate model req).1.1.story_text = default_text ∧
      (generate model req).1.1.title = "A Story About Kindness" ∧
      (generate model req).1.1.estimated_reading_time = "2-3 minutes") ∧
    ((generate model req).2 ≠ [] → (validate req).is_safe = true) := by
  by_cases h : (validate req).is_safe = false
  · simp [generate, h, create_safe_default_story]
  · have h' : (validate req).is_safe = true := by
      cases hv : (validate req).is_safe
      · exact absurd hv h
      · rfl
    simp [generate, h']

/-- Witness for generate_safe_routing at an unsafe concrete request. -/
theorem generate_safe_routing_witness :
    (generate (fun _ => ["x"]) ⟨"kill kill kill kill", "fantasy", "3-7", "short"⟩).2 = [] ∧
    (generate (fun _ => ["x"]) ⟨"kill kill kill kill", "fantasy", "3-7", "short"⟩).1.1 =
      create_safe_default_story ⟨"kill kill kill kill", "fantasy", "3-7", "short"⟩
        (validate ⟨"kill kill kill kill", "fantasy", "3-7", "short"⟩) :=
  ⟨((generate_safe_routing (fun _ => ["x"])
      ⟨"kill kill kill kill", "fantasy", "3-7", "short"⟩).2.1 (by decide)).1,
   ((generate_safe_routing (fun _ => ["x"])
      ⟨"kill kill kill kill", "fantasy", "3-7", "short"⟩).2.1 (by decide)).2.1⟩

/-- C2 counterexample: a prompt with exactly one distinct harmful term
repeated four times is template-replaced and flagged unsafe, so the
severity threshold and leniency rule count occurrences, not distinct
terms. -/
theorem validate_occurrences_cex :
    (validate ⟨"kill kill kill kill", "fantasy", "3-7", "short"⟩).removed_content = ["kill"] ∧
    (validate ⟨"kill kill kill kill", "fantasy", "3-7", "short"⟩).is_safe = false ∧
    (validate ⟨"kill kill kill kill", "fantasy", "3-7", "short"⟩).cleaned_prompt =
      "A gentle fantasy story about friendship and kindness" :=
  ⟨by decide, by decide, by decide⟩

/-- C3 counterexample: on the claim's example the code returns the first
line verbatim (it is shorter than 80 characters and does not end with a
period), not the text after the title prefix. -/
theorem extract_title_example_cex :
    extract_title "Title: The Brave Fox\nOnce upon a time..." = "Title: The Brave Fox" ∧
    extract_title "Title: The Brave Fox\nOnce upon a time..." ≠ "The Brave Fox" :=
  ⟨by decide, by decide⟩

/-- C3 (amended): the title-prefix rule applies only when the first
non-blank line fails the short-no-period check; then the remainder after
the 6-character prefix of the first line among the first three that starts
(case-insensitively) with title:, trimmed, is returned. -/
theorem extract_title_titleline (text l0 : String) (rest : List String) (line : String)
    (hl : titleLines text = l0 :: rest)
    (hfirst : ¬(l0.data.length < 80 ∧ pyEndsWith l0 "." = false))
    (hfind : ((l0 :: rest).take 3).find? (fun l => pyStartsWith (lowerS l) "title:") = some line) :
    extract_title text = pyStrip (pyDrop line 6) := by
  simp only [extract_title, hl, if_neg hfirst, hfind]

/-- Witness for extract_title_titleline: a first line ending in a period
followed by a Title: line. -/
theorem extract_title_titleline_witness :
    extract_title "This opening line of the story is a full sentence that ends with a period.\nTitle: The Brave Fox\nOnce upon a time..." = "The Brave Fox" :=
  (extract_title_titleline
    "This opening line of the story is a full sentence that ends with a period.\nTitle: The Brave Fox\nOnce upon a time..."
    "This opening line of the story is a full sentence that ends with a period."
    ["Title: The Brave Fox", "Once upon a time..."]
    "Title: The Brave Fox"
    (by decide) (by decide) (by decide)).trans (by decide)

/-- C5: validating the empty prompt never fails and returns no removed
content, no warnings, a safe flag, and the genre opener prepended to the
empty string as the cleaned prompt. -/
theorem validate_empty_prompt (g a sl : String) :
    validate ⟨"", g, a, sl⟩ =
      { original_prompt := ""
        cleaned_prompt := (genre_starters.lookup (lowerS g)).getD "Once upon a time, "
        is_safe := true
        removed_content := []
        warnings := [] } := by
  have hscan : scanPatterns "" harmful_patterns = ([], [], true) := by decide
  have hsub : replacements.foldl (fun cp pr => subWords pr.1 pr.2 cp) "" = "" := by decide
  have hany : (["once", "there", "in a", "one day"].any fun p => pyStartsWith "" p) = false := by
    decide
  have hlow : lowerS "" = "" := by decide
  simp [validate, hscan, hsub, enhance_prompt, hany, hlow, String.append_empty]

/-- C6: the reading-time computation renders max(1, word_count / 150) as a
minute range; in particular 300 words give 2-3 minutes and 50 words give
1-2 minutes. -/
theorem calculate_reading_time_formula (n : Nat) :
    calculate_reading_time n =
      toString (max 1 (n / 150)) ++ "-" ++ toString (max 1 (n / 150) + 1) ++ " minutes" ∧
    calculate_reading_time 300 = "2-3 minutes" ∧
    calculate_reading_time 50 = "1-2 minutes" :=
  ⟨rfl, by decide, by decide⟩

/-- C8: a story text consisting only of whitespace characters (including
the empty string) yields the literal default title. -/
theorem extract_title_whitespace (text : String)
    (h : ∀ c ∈ text.data, c.isWhitespace = true) :
    extract_title text = "A Wonderful Story" := by
  have hlines : titleLines text = [] := by
    unfold titleLines
    rw [List.filter_eq_nil_iff]
    intro x hx
    simp only [pySplitChar, List.map_map, List.mem_map] at hx
    obtain ⟨t, ht, rfl⟩ := hx
    have hstrip : pyStrip (String.mk t) = "" :=
      pyStrip_all_ws _ (fun c hc => h c (splitOnP_mem _ _ t ht c hc))
    simp [Function.comp, hstrip]
  have hfall : titleFallback text = "A Wonderful Story" := by
    obtain ⟨t0, ts, hts⟩ : ∃ t0 ts, splitOnP (fun c => c = '.') text.data = t0 :: ts := by
      cases hs : splitOnP (fun c => c = '.') text.data with
      | nil => exact absurd hs (splitOnP_ne_nil _ _)
      | cons a b => exact ⟨a, b, rfl⟩
    have hhead : (pySplitChar '.' text).headD "" = String.mk t0 := by
      simp [pySplitChar, hts]
    have hstrip : pyStrip (String.mk t0) = "" :=
      pyStrip_all_ws _ (fun c hc =>
        h c (splitOnP_mem _ _ t0 (by rw [hts]; exact List.mem_cons_self t0 ts) c hc))
    simp only [titleFallback, hhead, hstrip]
    simp
  simp only [extract_title, hlines, hfall]

/-- Witness for extract_title_whitespace on a concrete whitespace-only
text. -/
theorem extract_title_whitespace_witness :
    extract_title " \n " = "A Wonderful Story" :=
  extract_title_whitespace " \n " (by decide)

/-- C9: the safe-default story's reading time is the hard-coded literal
2-3 minutes, while its own word count (59, below 150) would give
1-2 minutes under the operational formula. -/
theorem safe_default_reading_time_mismatch (req : StoryRequest) (v : ValidatedPrompt) :
    (create_safe_default_story req v).estimated_reading_time = "2-3 minutes" ∧
    (create_safe_default_story req v).word_count = 59 ∧
    (create_safe_default_story req v).word_count < 150 ∧
    calculate_reading_time (create_safe_default_story req v).word_count = "1-2 minutes" ∧
    calculate_reading_time (create_safe_default_story req v).word_count ≠
      (create_safe_default_story req v).estimated_reading_time :=
  ⟨rfl,
   show (pySplit default_text).length = 59 by decide,
   show (pySplit default_text).length < 150 by decide,
   show calculate_reading_time (pySplit default_text).length = "1-2 minutes" by decide,
   show calculate_reading_time (pySplit default_text).length ≠ "2-3 minutes" by decide⟩

/-- C10: a prompt with a single occurrence of the harmful term kill is
flagged but passes by leniency, no replacement-table entry covers kill,
and the collaborator is called with a cleaned prompt that still contains
kill as a whole word. -/
theorem flagged_term_reaches_model (model : Model) :
    (validate ⟨"a dragon tried to kill a knight", "fantasy", "3-7", "short"⟩).removed_content = ["kill"] ∧
    (validate ⟨"a dragon tried to kill a knight", "fantasy", "3-7", "short"⟩).is_safe = true ∧
    (generate model ⟨"a dragon tried to kill a knight", "fantasy", "3-7", "short"⟩).2 =
      [modelCallOf ⟨"a dragon tried to kill a knight", "fantasy", "3-7", "short"⟩] ∧
    "kill" ∈ wordsOf ((modelCallOf ⟨"a dragon tried to kill a knight", "fantasy", "3-7", "short"⟩).prompt) := by
  refine ⟨by decide, by decide, ?_, by decide⟩
  have hsafe : (validate ⟨"a dragon tried to kill a knight", "fantasy", "3-7", "short"⟩).is_safe = true := by decide
  simp [generate, hsafe]

/-- C2 (amended): the severity threshold and the leniency rule are both
decided by the total occurrence count of harmful-term matches: at 1 to 3
occurrences the prompt stays safe with non-empty removed_content and at
least one warning; above 3 occurrences the template replacement fires and
the final flag is unsafe. -/
theorem validate_occurrence_thresholds (req : StoryRequest) :
    (1 ≤ occCount req.prompt → occCount req.prompt ≤ 3 →
      (validate req).is_safe = true ∧
      (validate req).removed_content ≠ [] ∧
      (validate req).warnings ≠ []) ∧
    (3 < occCount req.prompt →
      (validate req).is_safe = false ∧
      (validate req).cleaned_prompt =
        "A gentle " ++ req.genre ++ " story about friendship and kindness" ∧
      "Prompt was significantly modified for safety" ∈ (validate req).warnings) := by
  have hlen : (scanPatterns (lowerS req.prompt) harmful_patterns).1.length = occCount req.prompt :=
    scan_removed_length _ _
  constructor
  · intro h1 h3
    have hr : (scanPatterns (lowerS req.prompt) harmful_patterns).1 ≠ [] := by
      intro h0
      rw [h0] at hlen
      simp at hlen
      omega
    have hb : (scanPatterns (lowerS req.prompt) harmful_patterns).2.2 = false := by
      cases hbv : (scanPatterns (lowerS req.prompt) harmful_patterns).2.2
      · rfl
      · exact absurd ((scan_safe_iff _ _).mp hbv) hr
    have hle : (scanPatterns (lowerS req.prompt) harmful_patterns).1.length ≤ 3 := by omega
    have hcond : ¬((scanPatterns (lowerS req.prompt) harmful_patterns).2.2 = false ∧
        3 < (scanPatterns (lowerS req.prompt) harmful_patterns).1.length) := by
      rintro ⟨-, hgt⟩
      omega
    refine ⟨?_, ?_, ?_⟩
    · simp only [validate]
      rw [hb]
      simp [hle]
    · intro h0
      exact hr ((List.dedup_eq_nil _).mp h0)
    · simp only [validate]
      rw [if_neg hcond]
      intro h0
      exact hr ((scan_warnings_iff _ _).mp h0)
  · intro h4
    have hgt : 3 < (scanPatterns (lowerS req.prompt) harmful_patterns).1.length := by omega
    have hr : (scanPatterns (lowerS req.prompt) harmful_patterns).1 ≠ [] := by
      intro h0
      rw [h0] at hlen
      simp at hlen
      omega
    have hb : (scanPatterns (lowerS req.prompt) harmful_patterns).2.2 = false := by
      cases hbv : (scanPatterns (lowerS req.prompt) harmful_patterns).2.2
      · rfl
      · exact absurd ((scan_safe_iff _ _).mp hbv) hr
    have hcond : ((scanPatterns (lowerS req.prompt) harmful_patterns).2.2 = false ∧
        3 < (scanPatterns (lowerS req.prompt) harmful_patterns).1.length) := ⟨hb, hgt⟩
    have hnenh : ¬((scanPatterns (lowerS req.prompt) harmful_patterns).2.2 = true ∨
        (scanPatterns (lowerS req.prompt) harmful_patterns).1.length ≤ 3) := by
      rintro (hbt | hle3)
      · rw [hb] at hbt
        exact Bool.false_ne_true hbt
      · omega
    refine ⟨?_, ?_, ?_⟩
    · simp only [validate]
      rw [hb]
      simp
      omega
    · simp only [validate]
      rw [if_neg hnenh, if_pos hcond]
    · simp only [validate]
      rw [if_pos hcond]
      simp

/-- Witness for validate_occurrence_thresholds at a one-occurrence prompt
and a four-occurrence prompt. -/
theorem validate_occurrence_thresholds_witness :
    ((validate ⟨"a dragon tried to kill a knight", "fantasy", "3-7", "short"⟩).is_safe = true ∧
     (validate ⟨"a dragon tried to kill a knight", "fantasy", "3-7", "short"⟩).removed_content ≠ [] ∧
     (validate ⟨"a dragon tried to kill a knight", "fantasy", "3-7", "short"⟩).warnings ≠ []) ∧
    ((validate ⟨"kill kill kill kill", "war", "3-7", "short"⟩).is_safe = false ∧
     (validate ⟨"kill kill kill kill", "war", "3-7", "short"⟩).cleaned_prompt =
       "A gentle " ++ "war" ++ " story about friendship and kindness" ∧
     "Prompt was significantly modified for safety" ∈
       (validate ⟨"kill kill kill kill", "war", "3-7", "short"⟩).warnings) :=
  ⟨(validate_occurrence_thresholds _).1 (by decide) (by decide),
   (validate_occurrence_thresholds _).2 (by decide)⟩

/-- C4: on the safe path the orchestrator calls the collaborator exactly
once, with the enhanced cleaned prompt, the mapped maximum length
(short 400, medium 600, long 800, default 400), temperature 0.8,
nucleus threshold 0.9, repetition penalty 1.2, one requested sequence,
and takes the first returned sequence as the story text. -/
theorem generate_model_call_spec (model : Model) (req : StoryRequest)
    (h : (validate req).is_safe = true) :
    (generate model req).2 = [modelCallOf req] ∧
    (∀ s rest, model (modelCallOf req) = s :: rest →
      (generate model req).1.1.story_text = s) ∧
    (modelCallOf req).prompt = (validate req).cleaned_prompt ∧
    (modelCallOf req).temperature = 0.8 ∧
    (modelCallOf req).top_p = 0.9 ∧
    (modelCallOf req).repetition_penalty = 1.2 ∧
    (modelCallOf req).num_return_sequences = 1 ∧
    (req.story_length = "short" → (modelCallOf req).max_length = 400) ∧
    (req.story_length = "medium" → (modelCallOf req).max_length = 600) ∧
    (req.story_length = "long" → (modelCallOf req).max_length = 800) ∧
    (req.story_length ≠ "short" → req.story_length ≠ "medium" → req.story_length ≠ "long" →
      (modelCallOf req).max_length = 400) := by
  refine ⟨?_, ?_, rfl, rfl, rfl, rfl, rfl, ?_, ?_, ?_, ?_⟩
  · simp [generate, h]
  · intro s rest hm
    simp [generate, h, hm]
  · intro hsl
    show (LENGTH_MAPPING.lookup req.story_length).getD 400 = 400
    rw [hsl]
    decide
  · intro hsl
    show (LENGTH_MAPPING.lookup req.story_length).getD 400 = 600
    rw [hsl]
    decide
  · intro hsl
    show (LENGTH_MAPPING.lookup req.story_length).getD 400 = 800
    rw [hsl]
    decide
  · intro h1 h2 h3
    show (LENGTH_MAPPING.lookup req.story_length).getD 400 = 400
    have e1 : (req.story_length == "short") = false := beq_eq_false_iff_ne.mpr h1
    have e2 : (req.story_length == "medium") = false := beq_eq_false_iff_ne.mpr h2
    have e3 : (req.story_length == "long") = false := beq_eq_false_iff_ne.mpr h3
    simp [LENGTH_MAPPING, List.lookup_cons, e1, e2, e3]

/-- Witness for generate_model_call_spec at a concrete safe request with
medium length. -/
theorem generate_model_call_spec_witness :
    (generate (fun _ => ["hello"]) ⟨"a cat", "animals", "3-7", "medium"⟩).2 =
      [modelCallOf ⟨"a cat", "animals", "3-7", "medium"⟩] ∧
    (generate (fun _ => ["hello"]) ⟨"a cat", "animals", "3-7", "medium"⟩).1.1.story_text =
      "hello" :=
  ⟨(generate_model_call_spec (fun _ => ["hello"]) _ (by decide)).1,
   (generate_model_call_spec (fun _ => ["hello"]) _ (by decide)).2.1 "hello" [] rfl⟩

/-- The words of the lower-cased safety template around an arbitrary genre
split into the fixed surrounding words and the genre's own words. -/
theorem wordsOf_template (g : String) :
    wordsOf (lowerS ("A gentle " ++ g ++ " story about friendship and kindness")) =
      ["a", "gentle"] ++ wordsOf (lowerS g) ++
        ["story", "about", "friendship", "and", "kindness"] := by
  rw [lowerS_append, lowerS_append]
  have h1 : lowerS "A gentle " = "a gentle " := by decide
  have h2 : lowerS " story about friendship and kindness" =
      " story about friendship and kindness" := by decide
  rw [h1, h2]
  unfold wordsOf
  rw [String.data_append, String.data_append]
  have d1 : "a gentle ".data = "a gentle".data ++ [' '] := by decide
  have d2 : " story about friendship and kindness".data =
      ' ' :: "story about friendship and kindness".data := by decide
  rw [d1, d2]
  rw [List.append_assoc "a gentle".data [' '] (lowerS g).data, List.singleton_append]
  rw [List.append_assoc "a gentle".data (' ' :: (lowerS g).data)]
  rw [List.cons_append ' ' (lowerS g).data
    (' ' :: "story about friendship and kindness".data)]
  rw [wordsAux_sep_split ' ' (by decide) "a gentle".data]
  rw [wordsAux_append_sep ' ' (by decide) "a gentle".data]
  rw [wordsAux_sep_split ' ' (by decide) (lowerS g).data]
  rw [wordsAux_append_sep ' ' (by decide) (lowerS g).data]
  have w1 : (wordsAux [] "a gentle".data).map String.mk = ["a", "gentle"] := by decide
  have w2 : (wordsAux [] "story about friendship and kindness".data).map String.mk =
      ["story", "about", "friendship", "and", "kindness"] := by decide
  simp [List.map_append, w1, w2]

/-- C7 (amended): re-validating the template prompt (with the same genre)
matches no harmful pattern and stays safe, provided the genre itself
contains no harmful term as a whole word; a genre that is itself a
harmful term re-triggers detection. -/
theorem validate_template_revalidation (g a sl : String)
    (hg : ∀ w ∈ wordsOf (lowerS g), ∀ pat ∈ harmful_patterns, pat.contains w = false) :
    (validate ⟨"A gentle " ++ g ++ " story about friendship and kindness", g, a, sl⟩).removed_content = [] ∧
    (validate ⟨"A gentle " ++ g ++ " story about friendship and kindness", g, a, sl⟩).is_safe = true := by
  have hfind : ∀ pat ∈ harmful_patterns,
      findall pat (lowerS ("A gentle " ++ g ++ " story about friendship and kindness")) = [] := by
    intro pat hpat
    unfold findall
    rw [wordsOf_template, List.filter_append, List.filter_append]
    have fmid : (wordsOf (lowerS g)).filter (fun w => pat.contains w) = [] := by
      rw [List.filter_eq_nil_iff]
      intro w hw
      show ¬(pat.contains w = true)
      rw [hg w hw pat hpat]
      simp
    fin_cases hpat <;> rw [fmid] <;> decide
  have hscan := scan_all_nil
    (lowerS ("A gentle " ++ g ++ " story about friendship and kindness")) harmful_patterns hfind
  constructor
  · simp [validate, hscan]
  · simp [validate, hscan]

/-- Witness for validate_template_revalidation at genre fantasy. -/
theorem validate_template_revalidation_witness :
    (validate ⟨"A gentle " ++ "fantasy" ++ " story about friendship and kindness", "fantasy", "3-7", "short"⟩).removed_content = [] ∧
    (validate ⟨"A gentle " ++ "fantasy" ++ " story about friendship and kindness", "fantasy", "3-7", "short"⟩).is_safe = true :=
  validate_template_revalidation "fantasy" "3-7" "short" (by decide)

/-- C7 counterexample: with genre war the first validation produces the
template, but re-validating that cleaned prompt matches the harmful term
war, so removed_content is not empty. -/
theorem validate_template_revalidation_cex :
    (validate ⟨"kill kill kill kill", "war", "3-7", "short"⟩).cleaned_prompt =
      "A gentle war story about friendship and kindness" ∧
    (validate ⟨"A gentle war story about friendship and kindness", "war", "3-7", "short"⟩).removed_content = ["war"] ∧
    (validate ⟨"A gentle war story about friendship and kindness", "war", "3-7", "short"⟩).removed_content ≠ [] :=
  ⟨by decide, by decide, by decide⟩

end StoryMaker
